import Mathlib

/-!
Verification of the Section layer (sections.hpp / sections.cpp) of the
PatternLanguage memory-virtualization library.

The C++ sources are shallowly embedded as executable Lean definitions:

* machine integers (`u64`, `size_t`) become `Nat` (the source never relies on
  wrap-around in the claims under study);
* `std::optional<std::string>` error results become `Option IOErr`, where
  `IOErr` is an inductive with one constructor per `fmt::format` call site,
  carrying exactly the values the format string interpolates (the surrounding
  human-readable text is not modelled; no claim depends on it);
* `std::map<u64, SectionSpan>` becomes an association list kept sorted by key
  (`SpanMap`), with `emplace` as sorted no-replace insertion;
* the chunk callbacks become pure functions, and the bytes handed to (resp.
  chunk sizes requested from) them are additionally collected in the result so
  that "no partial transfer" is observable;
* the mutable reentrancy guards become explicit state: the provider guards are
  fields of `ProviderSection` (nothing inside one call can observably change
  them, since the callbacks are pure), and the per-view `m_isBeingAccessed`
  flags become a list `busy` of the ids of views currently mid-access, threaded
  through the recursive access interpreter;
* the recursion of `ViewSection::access` through the section registry is made
  total with a `fuel` parameter; running out of fuel yields the sentinel error
  `IOErr.outOfFuel`, which models a non-terminating C++ execution.
-/

/-- `ViewSection::SectionSpan` (sections.hpp lines 113-117): `offset` is the
`fromAddress` passed to `addSectionSpan`, i.e. the offset inside the source
section; the virtual offset is the key the span is stored under. -/
structure SectionSpan where
  sectionId : Nat
  offset : Nat
  size : Nat
deriving DecidableEq, Repr

/-- The `m_spans` member, `std::map<u64, SectionSpan>`, modelled as an
association list sorted by strictly increasing key. -/
abbrev SpanMap := List (Nat × SectionSpan)

/-- `std::map::emplace`: sorted insertion that silently does nothing when the
key is already present (first registration wins). -/
def SpanMap.emplace : SpanMap → Nat → SectionSpan → SpanMap
  | [], key, v => [(key, v)]
  | (k, w) :: rest, key, v =>
    if key < k then (key, v) :: (k, w) :: rest
    else if key = k then (k, w) :: rest
    else (k, w) :: SpanMap.emplace rest key v

/-- `ViewSection::addSectionSpan` (sections.cpp lines 74-89): the default
insertion offset is 0 for an empty map, otherwise the end of the last span
(`std::prev(m_spans.end())` is the greatest key, i.e. the last list entry). -/
def addSectionSpan (spans : SpanMap) (sectionId fromAddress size : Nat)
    (atOffset : Option Nat) : SpanMap :=
  let off :=
    match atOffset with
    | some o => o
    | none =>
      match spans.getLast? with
      | none => 0
      | some (k, w) => k + w.size
  spans.emplace off { sectionId := sectionId, offset := fromAddress, size := size }

/-- `ViewSection::size` (sections.cpp lines 91-98): 0 when no spans exist,
otherwise `(last key + last size) - first key`. -/
def ViewSection.size (spans : SpanMap) : Nat :=
  match spans.head?, spans.getLast? with
  | some first, some last => (last.1 + last.2.size) - first.1
  | _, _ => 0

/-- The floor lookup `std::prev(m_spans.upper_bound(address))` (sections.cpp
line 156): the entry with the greatest key that is at most `address`.  When
`address` is below the first key, `std::prev(begin())` has no defined value in
C++; that situation is modelled as `none`, feeding the out-of-bounds return of
line 158 (the only intent the explicit `address < it->first` test can have, and
what the spec's step (a) prescribes).  No claim is settled on that corner. -/
def SpanMap.floor : SpanMap → Nat → Option (Nat × SectionSpan)
  | [], _ => none
  | (k, v) :: rest, address =>
    if address < k then none
    else
      match SpanMap.floor rest address with
      | none => some (k, v)
      | some r => some r

/-- The error type: one constructor per distinct error produced in
sections.hpp / sections.cpp, carrying the values interpolated by the
corresponding `fmt::format` call (the fixed text and the hex-formatted
diagnostic hints of `ViewSection::access` are not modelled). -/
inductive IOErr where
  /-- "No memory has been attached. Reading is disabled" (sections.cpp line 16) -/
  | noReaderAttached
  /-- "Reentrant read operations are not supported" (line 19) -/
  | reentrantRead
  /-- "Zero size read buffer prevents reading" (line 22) -/
  | zeroReadBuffer
  /-- "No memory has been attached. Writing is disabled" (line 46) -/
  | noWriterAttached
  /-- "Reentrant write operations are not supported" (line 49) -/
  | reentrantWrite
  /-- "Zero size write buffer prevents writing" (line 52) -/
  | zeroWriteBuffer
  /-- "Attempted to access out-of-bounds area ..." (lines 121-149); the
  neighbour-gap hint text is diagnostic only and not modelled -/
  | outOfBounds (fromAddress toAddress : Nat)
  /-- "View self-recursion not permitted" (line 115) -/
  | selfRecursion
  /-- "Error writing underlying section {}: {}" (lines 178 and 182; the same
  text is used for both directions) -/
  | underlying (sectionId : Nat) (inner : IOErr)
  /-- "... Failed to access mapped section {}" (line 186), produced by the
  catch-all around section resolution and delegation -/
  | failedAccess (fromAddress toAddress sectionId : Nat)
  /-- "Expansion beyond maximum size of {} is not permitted. Would overflow my
  {} bytes" (sections.hpp line 72): carries the maximum and the overflow amount -/
  | resizeOverflow (maxSize overflow : Nat)
  /-- "Not implemented" (sections.cpp line 101) / "ProviderSection cannot be
  resized" (sections.hpp line 38) -/
  | notImplemented
  /-- Modelling artefact: the bounded interpreter ran out of fuel, standing for
  a C++ execution that would not terminate -/
  | outOfFuel
  /-- An error produced by a caller-supplied chunk callback -/
  | callbackFailed (tag : Nat)
  /-- Modelled from the spec: the capability-contract bounds rejection,
  carrying the request and the section size it was validated against -/
  | boundsViolation (address size sectionSize : Nat)
deriving DecidableEq, Repr

/-- State of one `ProviderSection` (sections.hpp lines 15-56).  The external
reader is a pure function from `(fromAddress, size)` to the bytes it stores
into the staging buffer; the external writer's effect is not observable inside
the model, so only its presence is kept.  `readBufferSize` / `writeBufferSize`
are the lengths of the staging vectors `m_readBuffer` / `m_writeBuffer`, fixed
at construction. -/
structure ProviderSection where
  dataSize : Nat
  reader : Option (Nat → Nat → List Nat)
  writer : Bool
  readBufferInUse : Bool
  writeBufferInUse : Bool
  readBufferSize : Nat
  writeBufferSize : Nat

/-- Result of `ProviderSection::readRaw`: the returned error, the buffer
slices forwarded to the chunk callback (in order), and the number of
invocations of the external reader. -/
structure ReadRawResult where
  error : Option IOErr
  chunks : List (List Nat)
  externalCalls : Nat
deriving DecidableEq, Repr

/-- Result of `ProviderSection::writeRaw`: the returned error, the sizes of
the buffer slices handed to the chunk callback to fill (in order), and the
number of invocations of the external writer. -/
structure WriteRawResult where
  error : Option IOErr
  chunks : List Nat
  externalCalls : Nat
deriving DecidableEq, Repr

/-- The staging-buffer slice of length `n`: whatever the reader produced,
truncated or zero-padded to exactly `n` bytes (`std::vector<u8>` is
zero-initialised). -/
def fixLen (bytes : List Nat) (n : Nat) : List Nat :=
  bytes.take n ++ List.replicate (n - bytes.length) 0

/-- The loop of `ProviderSection::readRaw` (sections.cpp lines 28-39): while
`chunkSize = min(size, m_readBuffer.size())` is nonzero, fill the staging
buffer from the external reader, forward the slice to the chunk callback
(aborting on its first error), and advance. -/
def providerReadLoop (rd : Nat → Nat → List Nat) (cap : Nat)
    (cb : List Nat → Option IOErr) (fromAddress size : Nat) : ReadRawResult :=
  let chunkSize := min size cap
  if _h : chunkSize = 0 then ⟨none, [], 0⟩
  else
    let bytes := fixLen (rd fromAddress chunkSize) chunkSize
    match cb bytes with
    | some e => ⟨some e, [bytes], 1⟩
    | none =>
      let rest := providerReadLoop rd cap cb (fromAddress + chunkSize) (size - chunkSize)
      ⟨rest.error, bytes :: rest.chunks, rest.externalCalls + 1⟩
termination_by size
decreasing_by omega

/-- The loop of `ProviderSection::writeRaw` (sections.cpp lines 58-69): while
`chunkSize = min(size, m_writeBuffer.size())` is nonzero, have the chunk
callback fill the staging slice (aborting on its first error, before the
external writer runs), then flush it to the external writer and advance. -/
def providerWriteLoop (cap : Nat) (cw : Nat → Option IOErr)
    (toAddress size : Nat) : WriteRawResult :=
  let chunkSize := min size cap
  if _h : chunkSize = 0 then ⟨none, [], 0⟩
  else
    match cw chunkSize with
    | some e => ⟨some e, [chunkSize], 0⟩
    | none =>
      let rest := providerWriteLoop cap cw (toAddress + chunkSize) (size - chunkSize)
      ⟨rest.error, chunkSize :: rest.chunks, rest.externalCalls + 1⟩
termination_by size
decreasing_by omega

/-- `ProviderSection::readRaw` (sections.cpp lines 14-42): preconditions in
source order — reader attached, read buffer not in use, read buffer capacity
nonzero — then the chunk loop. -/
def ProviderSection.readRaw (p : ProviderSection) (fromAddress size : Nat)
    (cb : List Nat → Option IOErr) : ReadRawResult :=
  match p.reader with
  | none => ⟨some .noReaderAttached, [], 0⟩
  | some rd =>
    if p.readBufferInUse then ⟨some .reentrantRead, [], 0⟩
    else if p.readBufferSize = 0 then ⟨some .zeroReadBuffer, [], 0⟩
    else providerReadLoop rd p.readBufferSize cb fromAddress size

/-- `ProviderSection::writeRaw` (sections.cpp lines 44-72).  Note the source
really does test `m_readBufferInUse` (line 48) and `m_readBuffer.size()`
(line 51) here, although the emitted messages and the loop (line 58, which
uses `m_writeBuffer`) concern the write buffer; the embedding reproduces
that faithfully. -/
def ProviderSection.writeRaw (p : ProviderSection) (toAddress size : Nat)
    (cw : Nat → Option IOErr) : WriteRawResult :=
  if p.writer = false then ⟨some .noWriterAttached, [], 0⟩
  else if p.readBufferInUse then ⟨some .reentrantWrite, [], 0⟩
  else if p.readBufferSize = 0 then ⟨some .zeroWriteBuffer, [], 0⟩
  else providerWriteLoop p.writeBufferSize cw toAddress size

/-- `InMemorySection::resize` (sections.hpp lines 70-77): beyond the maximum,
fail reporting the overflow amount and leave the buffer untouched; otherwise
`std::vector::resize`, which truncates or zero-pads to the new size. -/
def InMemorySection.resize (buffer : List Nat) (maxSize newSize : Nat) :
    Option IOErr × List Nat :=
  if maxSize < newSize then
    (some (.resizeOverflow maxSize (newSize - maxSize)), buffer)
  else
    (none, buffer.take newSize ++ List.replicate (newSize - buffer.length) 0)

/-- `InMemorySection::readRaw` (sections.hpp lines 79-81): one chunk-callback
invocation on `subspan(address, size)` of the resident buffer (total model of
the subspan; the capability layer has already validated the bounds when the
range is nonempty). -/
def InMemorySection.readRaw (buffer : List Nat) (address size : Nat)
    (cb : List Nat → Option IOErr) : Option IOErr × List (List Nat) :=
  let bytes := (buffer.drop address).take size
  (cb bytes, [bytes])

/-- `InMemorySection::writeRaw` (sections.hpp lines 83-85): one chunk-callback
invocation handed the `size`-byte subspan to fill.  The resulting buffer
mutation is not observable by any claim and is not tracked. -/
def InMemorySection.writeRaw (size : Nat) (cw : Nat → Option IOErr) :
    Option IOErr × List Nat :=
  (cw size, [size])

/-- Modelled from the spec: `ZerosSection::readRaw` is declared in
sections.hpp line 144 but its body is not among the sources.  Per spec 4.3,
reads behave as if the full requested range is zero-filled; the model delivers
it as one chunk. -/
def ZerosSection.readRaw (size : Nat) (cb : List Nat → Option IOErr) :
    Option IOErr × List (List Nat) :=
  let bytes := List.replicate size 0
  (cb bytes, [bytes])

/-- Modelled from the spec: `ZerosSection::writeRaw` is declared in
sections.hpp line 146 but its body is not among the sources.  Per spec 4.3,
writes are accepted and discarded; the chunk callback fills one slice. -/
def ZerosSection.writeRaw (size : Nat) (cw : Nat → Option IOErr) :
    Option IOErr × List Nat :=
  (cw size, [size])

/-- The closed family of backing stores (spec section 9), with the
configuration each kind holds in the sources. -/
inductive Sect where
  | provider (p : ProviderSection)
  | inMemory (buffer : List Nat) (maxSize : Nat)
  | zeros (size : Nat)
  | view (spans : SpanMap)

/-- `size()` of each kind: `m_dataSize` (sections.hpp line 34), the buffer
length (line 67), the declared size (line 136), and `ViewSection::size`. -/
def Sect.size : Sect → Nat
  | .provider p => p.dataSize
  | .inMemory buffer _ => buffer.length
  | .zeros n => n
  | .view spans => ViewSection.size spans

/-- Result of one `read`/`write` call through the capability contract: the
returned error, the byte chunks delivered to the read callback, the chunk
sizes requested from the write callback, and the view guard state after the
call. -/
structure AccessResult where
  error : Option IOErr
  readChunks : List (List Nat)
  writeChunks : List Nat
  busy : List Nat
deriving DecidableEq, Repr

mutual

/-- One `section.read` / `section.write` call.  The leading bounds test is
Modelled from the spec (section 4.1): the `api::Section` wrapper that validates
`[address, address + size)` against `size()` before dispatching to the
kind-specific `readRaw`/`writeRaw` is declared in api.hpp, which is not among
the sources; per spec 4.1/4.4 a zero-length request is never rejected there
(the view documents its own zero-length policy).  The dispatch itself follows
the sources. -/
def sectAccess (isRead : Bool) (fuel : Nat) (reg : Nat → Option Sect)
    (cb : List Nat → Option IOErr) (cw : Nat → Option IOErr)
    (busy : List Nat) (id : Nat) (s : Sect) (address size : Nat) : AccessResult :=
  if 0 < size ∧ Sect.size s < address + size then
    ⟨some (.boundsViolation address size (Sect.size s)), [], [], busy⟩
  else
    match s with
    | .provider p =>
      if isRead then
        let r := p.readRaw address size cb
        ⟨r.error, r.chunks, [], busy⟩
      else
        let r := p.writeRaw address size cw
        ⟨r.error, [], r.chunks, busy⟩
    | .inMemory buffer _ =>
      if isRead then
        let r := InMemorySection.readRaw buffer address size cb
        ⟨r.1, r.2, [], busy⟩
      else
        let r := InMemorySection.writeRaw size cw
        ⟨r.1, [], r.2, busy⟩
    | .zeros _ =>
      if isRead then
        let r := ZerosSection.readRaw size cb
        ⟨r.1, r.2, [], busy⟩
      else
        let r := ZerosSection.writeRaw size cw
        ⟨r.1, [], r.2, busy⟩
    | .view spans =>
      match fuel with
      | 0 => ⟨some .outOfFuel, [], [], busy⟩
      | f + 1 => ViewSection.access isRead f reg cb cw busy id spans address size
termination_by structural fuel

/-- `ViewSection::access` up to the loop (sections.cpp lines 112-153): the
reentrancy guard first (line 114), then the empty-map out-of-bounds return
(line 151), then the span loop with the guard flag set.  `ON_SCOPE_EXIT`
(line 119) clears exactly this view's flag on every exit path, modelled by
erasing `id` from the returned guard state at the single exit point. -/
def ViewSection.access (isRead : Bool) (fuel : Nat) (reg : Nat → Option Sect)
    (cb : List Nat → Option IOErr) (cw : Nat → Option IOErr)
    (busy : List Nat) (id : Nat) (spans : SpanMap) (address size : Nat) : AccessResult :=
  if id ∈ busy then ⟨some .selfRecursion, [], [], busy⟩
  else if spans.isEmpty then ⟨some (.outOfBounds address (address + size)), [], [], busy⟩
  else
    match fuel with
    | 0 => ⟨some .outOfFuel, [], [], busy⟩
    | f + 1 =>
      let r := viewLoop isRead f reg cb cw (id :: busy) spans address size
      ⟨r.error, r.readChunks, r.writeChunks, r.busy.erase id⟩
termination_by structural fuel

/-- The `while (true)` loop of `ViewSection::access` (sections.cpp lines
155-196): floor lookup (line 156, with the below-first-key case folded into
the out-of-bounds return of line 158), the late zero-size success (line 164),
the sub-request computation `chunkOffset = address - span.offset` and
`chunkSize = min(size, span.size)` (lines 170-171, exactly as the source
computes them), resolution and delegation with the unknown-id fault caught
(lines 173-187, the registry fault modelled as a `none` lookup), and the
advance (lines 189-195). -/
def viewLoop (isRead : Bool) (fuel : Nat) (reg : Nat → Option Sect)
    (cb : List Nat → Option IOErr) (cw : Nat → Option IOErr)
    (busy : List Nat) (spans : SpanMap) (address size : Nat) : AccessResult :=
  match SpanMap.floor spans address with
  | none => ⟨some (.outOfBounds address (address + size)), [], [], busy⟩
  | some kv =>
    if size = 0 then ⟨none, [], [], busy⟩
    else
      let span := kv.2
      let chunkOffset := address - span.offset
      let chunkSize := min size span.size
      match fuel with
      | 0 => ⟨some .outOfFuel, [], [], busy⟩
      | f + 1 =>
        match reg span.sectionId with
        | none => ⟨some (.failedAccess address (address + chunkSize) span.sectionId), [], [], busy⟩
        | some target =>
          let r := sectAccess isRead f reg cb cw busy span.sectionId target chunkOffset chunkSize
          match r.error with
          | some e => ⟨some (.underlying span.sectionId e), r.readChunks, r.writeChunks, r.busy⟩
          | none =>
            if size - chunkSize = 0 then ⟨none, r.readChunks, r.writeChunks, r.busy⟩
            else
              let rest := viewLoop isRead f reg cb cw r.busy spans (address + chunkSize) (size - chunkSize)
              ⟨rest.error, r.readChunks ++ rest.readChunks, r.writeChunks ++ rest.writeChunks, rest.busy⟩
termination_by structural fuel

end

/-- The sub-request source offset as the spec words it: `chunkOffset = address
- span.virtualOffset + span.sourceOffset`.  This definition follows the spec,
for comparison with the computation `address - span.offset` that `viewLoop`
takes from sections.cpp line 170. -/
def specChunkOffset (spans : SpanMap) (address : Nat) : Option Nat :=
  (SpanMap.floor spans address).map fun kv => address - kv.1 + kv.2.offset

/-- The chunk length sequence the spec words describe for ProviderSection:
repeatedly take `min(remaining, capacity)`.  This definition follows the spec,
for comparison with the chunks the provider loops actually produce. -/
def specChunkSizes (cap size : Nat) : List Nat :=
  if _h : min size cap = 0 then []
  else min size cap :: specChunkSizes cap (size - min size cap)
termination_by size
decreasing_by omega

/-- An always-successful read chunk callback. -/
def cbNone : List Nat → Option IOErr := fun _ => none

/-- An always-successful write chunk callback. -/
def cwNone : Nat → Option IOErr := fun _ => none

/-- The two-span view of claim C1: span A (section 65) at virtual [0,10)
mapping source offset 0, span B (section 66) registered at virtual offset 10
mapping source [0,20). -/
def spansC1 : SpanMap := [(0, ⟨65, 0, 10⟩), (10, ⟨66, 0, 20⟩)]

/-- Registry for the C1 scenario: the view is section 1; sections 65 and 66
are in-memory buffers whose byte at offset i has value i, so a delivered chunk
identifies the source offset actually read. -/
def regC1 : Nat → Option Sect := fun id =>
  if id = 1 then some (.view spansC1)
  else if id = 65 then some (.inMemory (List.range 10) 100)
  else if id = 66 then some (.inMemory (List.range 20) 100)
  else none

/-- The gap scenario of claim C4: spans at virtual offsets 0 (10 bytes) and 20
(10 bytes); virtual addresses in [10,20) are covered by no span. -/
def spansGap : SpanMap := [(0, ⟨70, 0, 10⟩), (20, ⟨71, 0, 10⟩)]

/-- A view (registry id 1) whose single span maps its whole virtual range
[0,10) back into itself at source offset 0. -/
def selfSpans : SpanMap := [(0, ⟨1, 0, 10⟩)]

/-- Registry in which section 1 is the self-referential view. -/
def selfReg : Nat → Option Sect := fun id =>
  if id = 1 then some (.view selfSpans) else none

/-- The one-span map used by the C9 witness: section 7 mapped at virtual
[0,4). -/
def spansW : SpanMap := [(0, ⟨7, 0, 4⟩)]

/-- A registry that resolves no id (every lookup faults). -/
def regNone : Nat → Option Sect := fun _ => none

/-- A registry resolving every id to an empty zeros section, so any nonzero
delegated request returns a bounds error to be wrapped. -/
def regZeros : Nat → Option Sect := fun _ => some (.zeros 0)

/-- The length of a staging-buffer slice is exactly the requested chunk size. -/
theorem fixLen_length (bytes : List Nat) (n : Nat) : (fixLen bytes n).length = n := by
  simp only [fixLen, List.length_append, List.length_take, List.length_replicate]
  omega

/-- With a nonzero capacity, the spec's chunk sizes sum to the request length. -/
theorem specChunkSizes_sum (cap : Nat) (hcap : 0 < cap) :
    ∀ size : Nat, (specChunkSizes cap size).sum = size := by
  intro size
  induction size using Nat.strong_induction_on with
  | _ size ih =>
    rw [specChunkSizes]
    split
    · next h => simp only [List.sum_nil]; omega
    · next h =>
      have e := ih (size - min size cap) (by omega)
      simp only [List.sum_cons, e]
      omega

/-- Ceiling-division step: peeling one chunk of `min size cap` off a nonzero
request decreases the chunk count `(size + cap - 1) / cap` by exactly one. -/
theorem ceil_div_step (cap size : Nat) (hcap : 0 < cap) (hsz : 0 < size) :
    (size - min size cap + cap - 1) / cap + 1 = (size + cap - 1) / cap := by
  rcases Nat.le_total size cap with hle | hle
  · have h1 : size - min size cap = 0 := by omega
    rw [h1]
    have h2 : (0 + cap - 1) / cap = 0 := Nat.div_eq_of_lt (by omega)
    rw [h2]
    have h3 : size + cap - 1 = (size - 1) + cap := by omega
    rw [h3, Nat.add_div_right _ hcap]
    have h4 : (size - 1) / cap = 0 := Nat.div_eq_of_lt (by omega)
    omega
  · have h1 : size - min size cap = size - cap := by omega
    rw [h1]
    have h2 : size - cap + cap - 1 = size - 1 := by omega
    have h3 : size + cap - 1 = (size - 1) + cap := by omega
    rw [h2, h3, Nat.add_div_right _ hcap]

/-- With a nonzero capacity and an error-free chunk callback, the read loop of
`ProviderSection::readRaw` succeeds, forwards exactly the spec's chunk sizes,
and invokes the external reader a ceiling-division number of times. -/
theorem providerReadLoop_spec (rd : Nat → Nat → List Nat) (cap : Nat)
    (cb : List Nat → Option IOErr) (hcap : 0 < cap) (hcb : ∀ b, cb b = none) :
    ∀ size fromAddress,
      (providerReadLoop rd cap cb fromAddress size).error = none
      ∧ (providerReadLoop rd cap cb fromAddress size).chunks.map List.length
          = specChunkSizes cap size
      ∧ (providerReadLoop rd cap cb fromAddress size).externalCalls
          = (size + cap - 1) / cap := by
  intro size
  induction size using Nat.strong_induction_on with
  | _ size ih =>
    intro a
    rw [providerReadLoop, specChunkSizes]
    split
    · next h =>
      refine ⟨rfl, rfl, ?_⟩
      have hz : size = 0 := by omega
      subst hz
      show 0 = (0 + cap - 1) / cap
      rw [Nat.div_eq_of_lt (by omega)]
    · next h =>
      obtain ⟨e1, e2, e3⟩ := ih (size - min size cap) (by omega) (a + min size cap)
      refine ⟨?_, ?_, ?_⟩
      · simp [hcb, e1]
      · simp [hcb, e2, fixLen_length]
      · simp [hcb, e3]
        exact ceil_div_step cap size hcap (by omega)

/-- With a nonzero capacity and an error-free chunk callback, the write loop of
`ProviderSection::writeRaw` succeeds, requests exactly the spec's chunk sizes,
and invokes the external writer a ceiling-division number of times. -/
theorem providerWriteLoop_spec (cap : Nat) (cw : Nat → Option IOErr)
    (hcap : 0 < cap) (hcw : ∀ n, cw n = none) :
    ∀ size toAddress,
      (providerWriteLoop cap cw toAddress size).error = none
      ∧ (providerWriteLoop cap cw toAddress size).chunks = specChunkSizes cap size
      ∧ (providerWriteLoop cap cw toAddress size).externalCalls
          = (size + cap - 1) / cap := by
  intro size
  induction size using Nat.strong_induction_on with
  | _ size ih =>
    intro a
    rw [providerWriteLoop, specChunkSizes]
    split
    · next h =>
      refine ⟨rfl, rfl, ?_⟩
      have hz : size = 0 := by omega
      subst hz
      show 0 = (0 + cap - 1) / cap
      rw [Nat.div_eq_of_lt (by omega)]
    · next h =>
      obtain ⟨e1, e2, e3⟩ := ih (size - min size cap) (by omega) (a + min size cap)
      refine ⟨?_, ?_, ?_⟩
      · simp [hcw, e1]
      · simp [hcw, e2]
      · simp [hcw, e3]
        exact ceil_div_step cap size hcap (by omega)

/-- Every call through the interpreter leaves the view guard state exactly as
it found it: each view's `ON_SCOPE_EXIT` clears its own flag, and nested calls
restore theirs, on success and on every error path. -/
theorem busy_restored (fuel : Nat) :
    (∀ (isRead : Bool) (reg : Nat → Option Sect) (cb : List Nat → Option IOErr)
       (cw : Nat → Option IOErr) (busy : List Nat) (id : Nat) (s : Sect) (address size : Nat),
       (sectAccess isRead fuel reg cb cw busy id s address size).busy = busy)
    ∧ (∀ (isRead : Bool) (reg : Nat → Option Sect) (cb : List Nat → Option IOErr)
       (cw : Nat → Option IOErr) (busy : List Nat) (id : Nat) (spans : SpanMap) (address size : Nat),
       (ViewSection.access isRead fuel reg cb cw busy id spans address size).busy = busy)
    ∧ (∀ (isRead : Bool) (reg : Nat → Option Sect) (cb : List Nat → Option IOErr)
       (cw : Nat → Option IOErr) (busy : List Nat) (spans : SpanMap) (address size : Nat),
       (viewLoop isRead fuel reg cb cw busy spans address size).busy = busy) := by
  induction fuel with
  | zero =>
    refine ⟨?_, ?_, ?_⟩
    · intro isRead reg cb cw busy id s address size
      rw [sectAccess.eq_def]
      split
      · rfl
      · cases s <;> dsimp only <;> (try split) <;> rfl
    · intro isRead reg cb cw busy id spans address size
      rw [ViewSection.access.eq_def]
      split
      · rfl
      · split <;> rfl
    · intro isRead reg cb cw busy spans address size
      rw [viewLoop.eq_def]
      split
      · rfl
      · split <;> rfl
  | succ f ih =>
    obtain ⟨ihS, ihA, ihL⟩ := ih
    refine ⟨?_, ?_, ?_⟩
    · intro isRead reg cb cw busy id s address size
      rw [sectAccess.eq_def]
      split
      · rfl
      · cases s with
        | provider p => dsimp only; split <;> rfl
        | inMemory buffer maxSize => dsimp only; split <;> rfl
        | zeros n => dsimp only; split <;> rfl
        | view spans => exact ihA isRead reg cb cw busy id spans address size
    · intro isRead reg cb cw busy id spans address size
      rw [ViewSection.access.eq_def]
      split
      · rfl
      · split
        · rfl
        · dsimp only
          rw [ihL]
          simp
    · intro isRead reg cb cw busy spans address size
      rw [viewLoop.eq_def]
      split
      · rfl
      · split
        · rfl
        · dsimp only
          split
          · rfl
          · split
            · simp only [ihS]
            · split
              · simp only [ihS]
              · simp only [ihL, ihS]

/-- Unfolding step: a call on a view with admissible bounds hands over to
`ViewSection::access` at one less fuel. -/
theorem sectAccess_view_succ (isRead : Bool) (f : Nat) (reg : Nat → Option Sect)
    (cb : List Nat → Option IOErr) (cw : Nat → Option IOErr) (busy : List Nat)
    (id : Nat) (spans : SpanMap) (address size : Nat)
    (hn : ¬(0 < size ∧ Sect.size (.view spans) < address + size)) :
    sectAccess isRead (f + 1) reg cb cw busy id (.view spans) address size
      = ViewSection.access isRead f reg cb cw busy id spans address size := by
  rw [sectAccess.eq_def, if_neg hn]

/-- Unfolding step: a non-reentrant access on a nonempty view runs the span
loop with its own id marked busy, and erases it again on exit. -/
theorem access_succ_not_busy (isRead : Bool) (f : Nat) (reg : Nat → Option Sect)
    (cb : List Nat → Option IOErr) (cw : Nat → Option IOErr) (busy : List Nat)
    (id : Nat) (spans : SpanMap) (address size : Nat)
    (h1 : id ∉ busy) (h2 : spans.isEmpty = false) :
    ViewSection.access isRead (f + 1) reg cb cw busy id spans address size
      = ⟨(viewLoop isRead f reg cb cw (id :: busy) spans address size).error,
         (viewLoop isRead f reg cb cw (id :: busy) spans address size).readChunks,
         (viewLoop isRead f reg cb cw (id :: busy) spans address size).writeChunks,
         (viewLoop isRead f reg cb cw (id :: busy) spans address size).busy.erase id⟩ := by
  rw [ViewSection.access.eq_def, if_neg h1, if_neg (by simp [h2])]

/-- One loop step whose registry lookup faults (the `catch` of sections.cpp
line 185 around `getSection`): the fault is converted into the descriptive
error naming the mapped section. -/
theorem viewLoop_resolve_fault (isRead : Bool) (f : Nat) (reg : Nat → Option Sect)
    (cb : List Nat → Option IOErr) (cw : Nat → Option IOErr) (busy : List Nat)
    (spans : SpanMap) (address size : Nat) (kv : Nat × SectionSpan)
    (hfloor : SpanMap.floor spans address = some kv) (hsz : size ≠ 0)
    (hreg : reg kv.2.sectionId = none) :
    viewLoop isRead (f + 1) reg cb cw busy spans address size
      = ⟨some (.failedAccess address (address + min size kv.2.size) kv.2.sectionId),
         [], [], busy⟩ := by
  rw [viewLoop.eq_def, hfloor]
  split
  · next h => cases h
  · next kv2 h =>
    cases h
    rw [if_neg hsz]
    simp only [hreg]

/-- One loop step whose delegated sub-request returns an error: the error is
returned wrapped with the failing section's identifier (sections.cpp lines
177-183). -/
theorem viewLoop_delegate_error (isRead : Bool) (f : Nat) (reg : Nat → Option Sect)
    (cb : List Nat → Option IOErr) (cw : Nat → Option IOErr) (busy : List Nat)
    (spans : SpanMap) (address size : Nat) (kv : Nat × SectionSpan)
    (target : Sect) (e : IOErr)
    (hfloor : SpanMap.floor spans address = some kv) (hsz : size ≠ 0)
    (hreg : reg kv.2.sectionId = some target)
    (herr : (sectAccess isRead f reg cb cw busy kv.2.sectionId target
              (address - kv.2.offset) (min size kv.2.size)).error = some e) :
    viewLoop isRead (f + 1) reg cb cw busy spans address size
      = ⟨some (.underlying kv.2.sectionId e),
         (sectAccess isRead f reg cb cw busy kv.2.sectionId target
           (address - kv.2.offset) (min size kv.2.size)).readChunks,
         (sectAccess isRead f reg cb cw busy kv.2.sectionId target
           (address - kv.2.offset) (min size kv.2.size)).writeChunks,
         (sectAccess isRead f reg cb cw busy kv.2.sectionId target
           (address - kv.2.offset) (min size kv.2.size)).busy⟩ := by
  rw [viewLoop.eq_def, hfloor]
  split
  · next h => cases h
  · next kv2 h =>
    cases h
    rw [if_neg hsz]
    simp only [hreg, herr]

/-- Claim C1: the claim states the delegated source offset is `address -
span.virtualOffset + span.sourceOffset`, so a read of this view at virtual
address 15 should reach B at source offset 5 and deliver B's byte 5.  The code
(sections.cpp line 170) computes `address - span.sourceOffset`, ignoring the
span's virtual offset: the read delivers B's byte 15 (first conjunct), while
the spec formula applied to the same floor span yields source offset 5
(second conjunct), and B's byte there is 5, not 15 (third conjunct). -/
theorem C1_chunkOffset_code_vs_spec :
    (sectAccess true 4 regC1 cbNone cwNone [] 1 (.view spansC1) 15 1).readChunks = [[15]]
    ∧ specChunkOffset spansC1 15 = some 5
    ∧ ((List.range 20).drop 5).take 1 = [5] := by
  refine ⟨by decide, by decide, by decide⟩

/-- Claim C2 (code bug): `ProviderSection::writeRaw` tests the READ staging
buffer's guards (sections.cpp lines 48 and 51) although its error messages and
its loop (line 58) concern the write buffer.  First conjunct: with a
zero-capacity write buffer (and a usable read buffer) a 4-byte write returns
success while transferring nothing, instead of failing with the zero-capacity
error the claim requires.  Second conjunct: with the write buffer already in
use, a 2-byte write proceeds through the in-use buffer (two chunks, two
external calls) instead of failing with the reentrancy error.  Third conjunct:
the reentrancy rejection fires only when the READ buffer is flagged in use. -/
theorem C2_writeRaw_precondition_slip :
    ProviderSection.writeRaw ⟨0, none, true, false, false, 1, 0⟩ 0 4 cwNone
      = ⟨none, [], 0⟩
    ∧ ProviderSection.writeRaw ⟨0, none, true, false, true, 1, 1⟩ 0 2 cwNone
      = ⟨none, [1, 1], 2⟩
    ∧ ProviderSection.writeRaw ⟨0, none, true, true, false, 1, 1⟩ 0 2 cwNone
      = ⟨some .reentrantWrite, [], 0⟩ := by
  refine ⟨?_, ?_, ?_⟩ <;> simp [ProviderSection.writeRaw, providerWriteLoop, cwNone]

/-- Claim C3: for every section kind (provider, in-memory, zeros, view), a
nonzero-length request whose range exceeds the section's declared size fails
with the bounds error before any transfer: no chunk reaches the read callback,
no chunk is requested from the write callback, and the guard state is
untouched.  The rejecting check is the capability-contract wrapper modelled
from the spec (see `sectAccess`). -/
theorem C3_out_of_bounds_rejected (isRead : Bool) (fuel : Nat)
    (reg : Nat → Option Sect) (cb : List Nat → Option IOErr) (cw : Nat → Option IOErr)
    (busy : List Nat) (id : Nat) (s : Sect) (address size : Nat)
    (hlen : 0 < size) (hout : Sect.size s < address + size) :
    sectAccess isRead fuel reg cb cw busy id s address size
      = ⟨some (.boundsViolation address size (Sect.size s)), [], [], busy⟩ := by
  rw [sectAccess.eq_def, if_pos ⟨hlen, hout⟩]

/-- Witness for C3: a 4-byte read at address 3 of a 5-byte zeros section (the
range [3,7) leaves [0,5)) is rejected with no transfer. -/
theorem C3_out_of_bounds_rejected_witness :
    0 < 4 ∧ Sect.size (.zeros 5) < 3 + 4
    ∧ sectAccess true 0 (fun _ => none) cbNone cwNone [] 0 (.zeros 5) 3 4
      = ⟨some (.boundsViolation 3 4 5), [], [], []⟩ :=
  ⟨by decide, by decide,
   C3_out_of_bounds_rejected true 0 (fun _ => none) cbNone cwNone [] 0 (.zeros 5) 3 4
     (by decide) (by decide)⟩

/-- Claim C4 (code bug): a zero-length read at covered address 5 succeeds
(first conjunct, as claimed), but a zero-length read at address 15 — covered
by no span — also returns success (second conjunct): the `address < it->first`
test of sections.cpp line 158 cannot detect a gap lying AFTER a span's end, so
the intent of the comment at lines 162-163 (and the claim's second half) is
not implemented; only the empty span map still yields the out-of-bounds error
on a zero-length probe (third conjunct). -/
theorem C4_zero_length_gap_succeeds :
    sectAccess true 3 (fun _ => none) cbNone cwNone [] 1 (.view spansGap) 5 0
      = ⟨none, [], [], []⟩
    ∧ sectAccess true 3 (fun _ => none) cbNone cwNone [] 1 (.view spansGap) 15 0
      = ⟨none, [], [], []⟩
    ∧ sectAccess true 3 (fun _ => none) cbNone cwNone [] 1 (.view []) 15 0
      = ⟨some (.outOfBounds 15 15), [], [], []⟩ := by
  refine ⟨by decide, by decide, by decide⟩

/-- Claim C5: with satisfied preconditions, a staging buffer of capacity B > 0
and an error-free chunk callback, a provider request of length N > 0 succeeds,
invokes the external reader/writer exactly ceil(N/B) = (N + B - 1) / B times,
produces chunks of exactly the lengths min(remaining, B) the spec describes,
and moves exactly N bytes through the chunk callback in total. -/
theorem C5_provider_chunking :
    (∀ (p : ProviderSection) (rd : Nat → Nat → List Nat) (cb : List Nat → Option IOErr)
       (fromAddress size : Nat),
       p.reader = some rd → p.readBufferInUse = false → 0 < p.readBufferSize →
       0 < size → (∀ b, cb b = none) →
       (p.readRaw fromAddress size cb).error = none
       ∧ (p.readRaw fromAddress size cb).chunks.map List.length
           = specChunkSizes p.readBufferSize size
       ∧ ((p.readRaw fromAddress size cb).chunks.map List.length).sum = size
       ∧ (p.readRaw fromAddress size cb).externalCalls
           = (size + p.readBufferSize - 1) / p.readBufferSize)
    ∧ (∀ (p : ProviderSection) (cw : Nat → Option IOErr) (toAddress size : Nat),
       p.writer = true → p.readBufferInUse = false → p.readBufferSize ≠ 0 →
       0 < p.writeBufferSize → 0 < size → (∀ n, cw n = none) →
       (p.writeRaw toAddress size cw).error = none
       ∧ (p.writeRaw toAddress size cw).chunks = specChunkSizes p.writeBufferSize size
       ∧ (p.writeRaw toAddress size cw).chunks.sum = size
       ∧ (p.writeRaw toAddress size cw).externalCalls
           = (size + p.writeBufferSize - 1) / p.writeBufferSize) := by
  constructor
  · intro p rd cb a size h1 h2 h3 _h4 hcb
    have hr : p.readRaw a size cb = providerReadLoop rd p.readBufferSize cb a size := by
      unfold ProviderSection.readRaw
      rw [h1, h2]
      split
      · next h => cases h
      · next rd2 h =>
        cases h
        rw [if_neg (by simp), if_neg (by omega)]
    obtain ⟨e1, e2, e3⟩ := providerReadLoop_spec rd p.readBufferSize cb h3 hcb size a
    rw [hr]
    exact ⟨e1, e2, by rw [e2]; exact specChunkSizes_sum _ h3 size, e3⟩
  · intro p cw a size h1 h2 h3 h4 _h5 hcw
    have hr : p.writeRaw a size cw = providerWriteLoop p.writeBufferSize cw a size := by
      unfold ProviderSection.writeRaw
      rw [h1, h2]
      rw [if_neg (by simp), if_neg (by simp), if_neg h3]
    obtain ⟨e1, e2, e3⟩ := providerWriteLoop_spec p.writeBufferSize cw h4 hcw size a
    rw [hr]
    exact ⟨e1, e2, by rw [e2]; exact specChunkSizes_sum _ h4 size, e3⟩

/-- Witness for C5: a 5-byte read and a 5-byte write against capacity-2
staging buffers run in 3 external calls each. -/
theorem C5_provider_chunking_witness :
    (0 < (2:Nat) ∧ 0 < (5:Nat)
     ∧ ((⟨9, some (fun _ n => List.replicate n 7), true, false, false, 2, 2⟩ :
          ProviderSection).readRaw 0 5 cbNone).externalCalls = (5 + 2 - 1) / 2)
    ∧ ((⟨9, some (fun _ n => List.replicate n 7), true, false, false, 2, 2⟩ :
          ProviderSection).writeRaw 0 5 cwNone).chunks
        = specChunkSizes 2 5 :=
  ⟨⟨by decide, by decide,
    (C5_provider_chunking.1 ⟨9, some (fun _ n => List.replicate n 7), true, false, false, 2, 2⟩
      (fun _ n => List.replicate n 7) cbNone 0 5 rfl rfl (by decide) (by decide)
      (fun _ => rfl)).2.2.2⟩,
   (C5_provider_chunking.2 ⟨9, some (fun _ n => List.replicate n 7), true, false, false, 2, 2⟩
      cwNone 0 5 rfl rfl (by decide) (by decide) (by decide) (fun _ => rfl)).2.1⟩

/-- Claim C6: `ViewSection::size` reports 0 with no spans; with spans it is
`(lastSpanOffset + lastSpanLength) - firstSpanOffset`; and the claim's
concrete build — `addSectionSpan(A,0,10)` then `addSectionSpan(B,0,20,
atOffset=10)` on an initially empty view — reports size 30. -/
theorem C6_view_size :
    ViewSection.size [] = 0
    ∧ (∀ (spans : SpanMap) (first last : Nat × SectionSpan),
        spans.head? = some first → spans.getLast? = some last →
        ViewSection.size spans = (last.1 + last.2.size) - first.1)
    ∧ ViewSection.size (addSectionSpan (addSectionSpan [] 65 0 10 none) 66 0 20 (some 10)) = 30 := by
  refine ⟨rfl, ?_, by decide⟩
  intro spans first last h1 h2
  unfold ViewSection.size
  rw [h1, h2]

/-- Witness for C6: the span map built in the claim's scenario has first
offset 0 and last span [10,10+20), so the reported extent is 30. -/
theorem C6_view_size_witness :
    ([(0, ⟨65, 0, 10⟩), (10, ⟨66, 0, 20⟩)] : SpanMap).head? = some (0, ⟨65, 0, 10⟩)
    ∧ ([(0, ⟨65, 0, 10⟩), (10, ⟨66, 0, 20⟩)] : SpanMap).getLast? = some (10, ⟨66, 0, 20⟩)
    ∧ ViewSection.size [(0, ⟨65, 0, 10⟩), (10, ⟨66, 0, 20⟩)] = (10 + 20) - 0 :=
  ⟨rfl, by decide,
   C6_view_size.2.1 [(0, ⟨65, 0, 10⟩), (10, ⟨66, 0, 20⟩)] (0, ⟨65, 0, 10⟩) (10, ⟨66, 0, 20⟩)
     rfl (by decide)⟩

/-- Claim C7: (1) an access started while the view is already mid-access
returns the self-recursion error immediately, for every direction, fuel,
registry, span map and request; (2) the guard flag is held only for the call's
duration — every call returns the guard state it was given, on success and on
every error path; (3) for the directly self-referential view, every in-bounds
nonzero-length read or write access terminates after a single delegation with
the self-recursion error (wrapped in the failing section's id by the outer
delegation), independently of the available recursion budget — rather than
looping or overflowing the stack. -/
theorem C7_self_recursion_guard :
    (∀ (isRead : Bool) (fuel : Nat) (reg : Nat → Option Sect)
       (cb : List Nat → Option IOErr) (cw : Nat → Option IOErr) (busy : List Nat)
       (id : Nat) (spans : SpanMap) (address size : Nat), id ∈ busy →
       ViewSection.access isRead fuel reg cb cw busy id spans address size
         = ⟨some .selfRecursion, [], [], busy⟩)
    ∧ (∀ (isRead : Bool) (fuel : Nat) (reg : Nat → Option Sect)
       (cb : List Nat → Option IOErr) (cw : Nat → Option IOErr) (busy : List Nat)
       (id : Nat) (s : Sect) (address size : Nat),
       (sectAccess isRead fuel reg cb cw busy id s address size).busy = busy)
    ∧ (∀ (isRead : Bool) (fuel address size : Nat), 0 < size → address + size ≤ 10 →
       sectAccess isRead (fuel + 4) selfReg cbNone cwNone [] 1 (.view selfSpans) address size
         = ⟨some (.underlying 1 .selfRecursion), [], [], []⟩) := by
  refine ⟨?_, ?_, ?_⟩
  · intro isRead fuel reg cb cw busy id spans address size hmem
    rw [ViewSection.access.eq_def, if_pos hmem]
  · intro isRead fuel reg cb cw busy id s address size
    exact (busy_restored fuel).1 isRead reg cb cw busy id s address size
  · intro isRead fuel address size h1 h2
    have hs : Sect.size (.view selfSpans) = 10 := rfl
    have hfloor : SpanMap.floor selfSpans address = some (0, ⟨1, 0, 10⟩) := by
      simp [selfSpans, SpanMap.floor]
    have hb1 : ¬(0 < size ∧ Sect.size (.view selfSpans) < address + size) := by
      rw [hs]
      omega
    have hb2 : ¬(0 < min size 10 ∧ Sect.size (.view selfSpans) < (address - 0) + min size 10) := by
      rw [hs]
      omega
    have einner : sectAccess isRead (fuel + 1) selfReg cbNone cwNone [1] 1 (.view selfSpans)
        (address - 0) (min size 10) = ⟨some .selfRecursion, [], [], [1]⟩ :=
      calc sectAccess isRead (fuel + 1) selfReg cbNone cwNone [1] 1 (.view selfSpans)
            (address - 0) (min size 10)
          = ViewSection.access isRead fuel selfReg cbNone cwNone [1] 1 selfSpans
            (address - 0) (min size 10) :=
            sectAccess_view_succ isRead fuel selfReg cbNone cwNone [1] 1 selfSpans _ _ hb2
        _ = ⟨some .selfRecursion, [], [], [1]⟩ := by
            rw [ViewSection.access.eq_def, if_pos (by simp : (1:Nat) ∈ [1])]
    have eloop : viewLoop isRead (fuel + 2) selfReg cbNone cwNone [1] selfSpans address size
        = ⟨some (.underlying 1 .selfRecursion), [], [], [1]⟩ := by
      refine (viewLoop_delegate_error isRead (fuel + 1) selfReg cbNone cwNone [1] selfSpans
        address size (0, ⟨1, 0, 10⟩) (.view selfSpans) .selfRecursion hfloor (by omega)
        (by simp [selfReg]) (by dsimp only; rw [einner])).trans ?_
      dsimp only
      rw [einner]
    calc sectAccess isRead (fuel + 4) selfReg cbNone cwNone [] 1 (.view selfSpans) address size
        = ViewSection.access isRead (fuel + 3) selfReg cbNone cwNone [] 1 selfSpans address size :=
          sectAccess_view_succ isRead (fuel + 3) selfReg cbNone cwNone [] 1 selfSpans _ _ hb1
      _ = ⟨(viewLoop isRead (fuel + 2) selfReg cbNone cwNone [1] selfSpans address size).error,
           (viewLoop isRead (fuel + 2) selfReg cbNone cwNone [1] selfSpans address size).readChunks,
           (viewLoop isRead (fuel + 2) selfReg cbNone cwNone [1] selfSpans address size).writeChunks,
           (viewLoop isRead (fuel + 2) selfReg cbNone cwNone [1] selfSpans address size).busy.erase 1⟩ :=
          access_succ_not_busy isRead (fuel + 2) selfReg cbNone cwNone [] 1 selfSpans address size
            (by simp) (by simp [selfSpans])
      _ = ⟨some (.underlying 1 .selfRecursion), [], [], []⟩ := by
          rw [eloop]
          rfl

/-- Witness for C7: concrete instances — a reentrant call with the guard set
returns the self-recursion error; the guard list is returned unchanged; the
4-byte read of the self-referential view at address 0 fails wrapped. -/
theorem C7_self_recursion_guard_witness :
    ((1:Nat) ∈ [1]
     ∧ ViewSection.access true 5 selfReg cbNone cwNone [1] 1 selfSpans 0 4
         = ⟨some .selfRecursion, [], [], [1]⟩)
    ∧ (sectAccess true 6 selfReg cbNone cwNone [3] 9 (.view selfSpans) 0 4).busy = [3]
    ∧ (0 < 4 ∧ 0 + 4 ≤ 10
       ∧ sectAccess true 6 selfReg cbNone cwNone [] 1 (.view selfSpans) 0 4
           = ⟨some (.underlying 1 .selfRecursion), [], [], []⟩) :=
  ⟨⟨by decide,
    C7_self_recursion_guard.1 true 5 selfReg cbNone cwNone [1] 1 selfSpans 0 4 (by decide)⟩,
   C7_self_recursion_guard.2.1 true 6 selfReg cbNone cwNone [3] 9 (.view selfSpans) 0 4,
   by decide, by decide,
   C7_self_recursion_guard.2.2 true 2 0 4 (by decide) (by decide)⟩

/-- Claim C8: `InMemorySection::resize` beyond the configured maximum fails
with the error carrying the maximum and the overflow amount `newSize - M`,
and returns the buffer unchanged (size and content); within the maximum it
succeeds and the section's size becomes exactly `newSize`. -/
theorem C8_inmemory_resize (buffer : List Nat) (maxSize newSize : Nat) :
    (maxSize < newSize →
      InMemorySection.resize buffer maxSize newSize
        = (some (.resizeOverflow maxSize (newSize - maxSize)), buffer))
    ∧ (newSize ≤ maxSize →
      (InMemorySection.resize buffer maxSize newSize).1 = none
      ∧ ((InMemorySection.resize buffer maxSize newSize).2).length = newSize) := by
  constructor
  · intro h
    unfold InMemorySection.resize
    rw [if_pos h]
  · intro h
    unfold InMemorySection.resize
    rw [if_neg (by omega)]
    refine ⟨rfl, ?_⟩
    simp only [List.length_append, List.length_take, List.length_replicate]
    omega

/-- Witness for C8: growing a 3-byte buffer beyond maximum 5 to 9 fails
reporting overflow 4 and keeps the buffer; resizing to 5 succeeds with the new
size 5. -/
theorem C8_inmemory_resize_witness :
    (5 < 9 ∧ InMemorySection.resize [1, 2, 3] 5 9 = (some (.resizeOverflow 5 4), [1, 2, 3]))
    ∧ (5 ≤ 5 ∧ (InMemorySection.resize [1, 2, 3] 5 5).1 = none
       ∧ ((InMemorySection.resize [1, 2, 3] 5 5).2).length = 5) :=
  ⟨⟨by decide, (C8_inmemory_resize [1, 2, 3] 5 9).1 (by decide)⟩,
   by decide, (C8_inmemory_resize [1, 2, 3] 5 5).2 (by decide)⟩

/-- Claim C9: when the span loop delegates a sub-request, (1) a fault while
resolving the mapped section (unknown id, modelled by the registry lookup
returning nothing) is caught at the view boundary and converted into the
descriptive error naming the failing mapped section, with no transfer and no
uncaught propagation; and (2) an error returned by the delegated read/write
comes back wrapped with the failing section's identifier. -/
theorem C9_delegation_error_wrapping :
    (∀ (isRead : Bool) (f : Nat) (reg : Nat → Option Sect) (cb : List Nat → Option IOErr)
       (cw : Nat → Option IOErr) (busy : List Nat) (spans : SpanMap) (address size : Nat)
       (kv : Nat × SectionSpan),
       SpanMap.floor spans address = some kv → size ≠ 0 → reg kv.2.sectionId = none →
       viewLoop isRead (f + 1) reg cb cw busy spans address size
         = ⟨some (.failedAccess address (address + min size kv.2.size) kv.2.sectionId),
            [], [], busy⟩)
    ∧ (∀ (isRead : Bool) (f : Nat) (reg : Nat → Option Sect) (cb : List Nat → Option IOErr)
       (cw : Nat → Option IOErr) (busy : List Nat) (spans : SpanMap) (address size : Nat)
       (kv : Nat × SectionSpan) (target : Sect) (e : IOErr),
       SpanMap.floor spans address = some kv → size ≠ 0 →
       reg kv.2.sectionId = some target →
       (sectAccess isRead f reg cb cw busy kv.2.sectionId target
         (address - kv.2.offset) (min size kv.2.size)).error = some e →
       (viewLoop isRead (f + 1) reg cb cw busy spans address size).error
         = some (.underlying kv.2.sectionId e)) := by
  constructor
  · intro isRead f reg cb cw busy spans address size kv hfloor hsz hreg
    exact viewLoop_resolve_fault isRead f reg cb cw busy spans address size kv hfloor hsz hreg
  · intro isRead f reg cb cw busy spans address size kv target e hfloor hsz hreg herr
    rw [viewLoop_delegate_error isRead f reg cb cw busy spans address size kv target e
      hfloor hsz hreg herr]

/-- Witness for C9: a 2-byte access at address 1 under a failing registry
yields the converted resolution fault naming section 7; under a registry
mapping 7 to an empty section, the delegated bounds error comes back wrapped
with id 7. -/
theorem C9_delegation_error_wrapping_witness :
    (SpanMap.floor spansW 1 = some (0, ⟨7, 0, 4⟩) ∧ (2:Nat) ≠ 0 ∧ regNone 7 = none
     ∧ viewLoop true 1 regNone cbNone cwNone [9] spansW 1 2
         = ⟨some (.failedAccess 1 (1 + min 2 4) 7), [], [], [9]⟩)
    ∧ (regZeros 7 = some (.zeros 0)
       ∧ (sectAccess true 0 regZeros cbNone cwNone [9] 7 (.zeros 0) (1 - 0) (min 2 4)).error
           = some (.boundsViolation 1 2 0)
       ∧ (viewLoop true 1 regZeros cbNone cwNone [9] spansW 1 2).error
           = some (.underlying 7 (.boundsViolation 1 2 0))) :=
  ⟨⟨by decide, by decide, rfl,
    C9_delegation_error_wrapping.1 true 0 regNone cbNone cwNone [9] spansW 1 2 (0, ⟨7, 0, 4⟩)
      (by decide) (by decide) rfl⟩,
   rfl, by decide,
   C9_delegation_error_wrapping.2 true 0 regZeros cbNone cwNone [9] spansW 1 2 (0, ⟨7, 0, 4⟩)
     (.zeros 0) (.boundsViolation 1 2 0) (by decide) (by decide) rfl (by decide)⟩

/-- Claim C10 (code bug in the write direction): first conjunct — with a
reader attached and a usable read staging buffer, a zero-length read succeeds
with no external call and no chunk delivered, as the claim states; second
conjunct — a zero-length write with the guards the CODE tests (read buffer
usable) also succeeds with no transfer; third conjunct — with a writer
attached and a non-empty, not-in-use WRITE staging buffer (the claim's
preconditions) but a zero-capacity READ buffer, the zero-length write is
rejected (sections.cpp line 51 tests `m_readBuffer`), where the claim expects
success; fourth conjunct — likewise an in-use READ buffer makes it fail with
the reentrancy error although the write buffer is idle. -/
theorem C10_zero_length_request :
    ProviderSection.readRaw ⟨8, some (fun _ n => List.replicate n 7), false, false, false, 2, 2⟩
        0 0 cbNone = ⟨none, [], 0⟩
    ∧ ProviderSection.writeRaw ⟨8, none, true, false, false, 2, 2⟩ 0 0 cwNone = ⟨none, [], 0⟩
    ∧ ProviderSection.writeRaw ⟨8, none, true, false, false, 0, 2⟩ 0 0 cwNone
        = ⟨some .zeroWriteBuffer, [], 0⟩
    ∧ ProviderSection.writeRaw ⟨8, none, true, true, false, 2, 2⟩ 0 0 cwNone
        = ⟨some .reentrantWrite, [], 0⟩ := by
  refine ⟨?_, ?_, ?_, ?_⟩ <;>
    simp [ProviderSection.readRaw, ProviderSection.writeRaw, providerReadLoop,
      providerWriteLoop, cbNone, cwNone]
